import Mathlib

/-!
Shallow embedding of the asynchronous callback-correlation core of the
bleak BLE client library (python-for-android backend):

* `src/bleak/backends/p4android/utils.py` — `AsyncJavaCallbacks`
  (`_if_expected`, `perform_and_wait`, `_result_state_unthreadsafe`),
* `src/bleak/backends/p4android/client.py` — `BleakClientP4Android`
  (`is_connected`, `disconnect`, `start_notify`) and
  `_PythonBluetoothGattCallback` (`result_state`, `onConnectionStateChange`,
  `onCharacteristicChanged`).

Python dictionaries (`self.futures`, `self.states`, `self._subscriptions`)
are embedded as association lists with overwrite-on-insert semantics.
`asyncio` futures are embedded as heap cells (`slotv : List (Nat × Option …)`)
addressed by numeric ids allocated from `nextId`, so that a future held by an
awaiting caller can be distinguished from the future currently registered in
the `futures` table.  The coroutine `perform_and_wait` is split at its single
`await` point into `perform_and_wait_start` (everything before the await,
including the dedup fast path and the dispatch of the native call) and
`perform_and_wait_finish` (everything after the await).  Exceptions are
values of `PyErr`; notably, a reference to an unbound Python name (the
module-level `warnings` that is never imported, and the local `result` that
is never assigned) is embedded as `PyErr.nameError`.
-/

namespace Bleak

/-- An operation key (`resultApi` in `perform_and_wait`): either a bare Java
callback name such as `'onServicesDiscovered'`, or a pair of a callback name
and an integer characteristic handle such as `('onCharacteristicRead', handle)`,
or a pair of a callback name and a descriptor UUID string. -/
inductive Key
  | api (name : String)
  | apiH (name : String) (handle : Nat)
  | apiU (name : String) (uuidStr : String)
deriving DecidableEq, Repr

/-- The data tuple carried by a Java callback (`data` in
`_result_state_unthreadsafe`), e.g. `('STATE_CONNECTED',)`. -/
abbrev Payload := List String

/-- Python exceptions raised by the embedded code. `bleakError` is
`BleakError(args...)` with its arguments rendered as strings; `nameError`
is a `NameError` for an unbound name such as `result` or `warnings`. -/
inductive PyErr
  | bleakError (args : List String)
  | nameError (missing : String)
deriving DecidableEq, Repr

/-- Render a key the way it appears inside `BleakError` arguments. -/
def Key.str : Key → String
  | .api n => n
  | .apiH n h => n ++ "#" ++ toString h
  | .apiU n u => n ++ "#" ++ u

/-! ### Association lists with Python-dict semantics -/

/-- Dictionary lookup `d.get(k)` / `d[k]`. -/
def alookup {α β : Type} [DecidableEq α] : List (α × β) → α → Option β
  | [], _ => none
  | (k, v) :: rest, k' => if k' = k then some v else alookup rest k'

/-- Dictionary assignment `d[k] = v`: replaces the binding if present,
otherwise appends it. -/
def ainsert {α β : Type} [DecidableEq α] : List (α × β) → α → β → List (α × β)
  | [], k, v => [(k, v)]
  | (k', v') :: rest, k, v =>
    if k = k' then (k, v) :: rest else (k', v') :: ainsert rest k v

/-- Dictionary deletion `del d[k]` (removes the first binding of `k`). -/
def aremove {α β : Type} [DecidableEq α] : List (α × β) → α → List (α × β)
  | [], _ => []
  | (k', v') :: rest, k => if k = k' then rest else (k', v') :: aremove rest k

@[simp] theorem alookup_nil {α β : Type} [DecidableEq α] (k : α) :
    alookup ([] : List (α × β)) k = none := rfl

@[simp] theorem alookup_ainsert_self {α β : Type} [DecidableEq α]
    (l : List (α × β)) (k : α) (v : β) : alookup (ainsert l k v) k = some v := by
  induction l with
  | nil => simp [ainsert, alookup]
  | cons hd tl ih =>
    obtain ⟨k', v'⟩ := hd
    by_cases h : k = k'
    · subst h; simp [ainsert, alookup]
    · simp [ainsert, alookup, h, ih]

theorem alookup_ainsert_ne {α β : Type} [DecidableEq α]
    (l : List (α × β)) (k k' : α) (v : β) (h : k' ≠ k) :
    alookup (ainsert l k v) k' = alookup l k' := by
  induction l with
  | nil => simp [ainsert, alookup, h]
  | cons hd tl ih =>
    obtain ⟨k₀, v₀⟩ := hd
    by_cases hk : k = k₀
    · subst hk; simp [ainsert, alookup, h]
    · by_cases hk' : k' = k₀
      · subst hk'; simp [ainsert, hk, alookup]
      · simp [ainsert, alookup, hk, hk', ih]

/-- The keys of an association list. -/
def akeys {α β : Type} (l : List (α × β)) : List α := l.map Prod.fst

theorem mem_akeys_ainsert {α β : Type} [DecidableEq α]
    (l : List (α × β)) (k a : α) (v : β) :
    a ∈ akeys (ainsert l k v) ↔ a = k ∨ a ∈ akeys l := by
  induction l with
  | nil => simp [ainsert, akeys]
  | cons hd tl ih =>
    obtain ⟨k₀, v₀⟩ := hd
    by_cases hk : k = k₀
    · subst hk; simp [ainsert, akeys]
    · simp [ainsert, akeys, hk] at ih ⊢
      tauto

theorem akeys_ainsert_nodup {α β : Type} [DecidableEq α]
    (l : List (α × β)) (k : α) (v : β) (h : (akeys l).Nodup) :
    (akeys (ainsert l k v)).Nodup := by
  induction l with
  | nil => simp [ainsert, akeys]
  | cons hd tl ih =>
    obtain ⟨k₀, v₀⟩ := hd
    simp only [akeys, List.map_cons, List.nodup_cons] at h
    by_cases hk : k = k₀
    · subst hk
      simpa [ainsert, akeys, List.nodup_cons] using h
    · have htl := ih h.2
      have hmem : k₀ ∉ akeys (ainsert tl k v) := by
        rw [mem_akeys_ainsert]
        push_neg
        exact ⟨Ne.symm hk, h.1⟩
      simp only [ainsert, if_neg hk]
      show (k₀ :: akeys (ainsert tl k v)).Nodup
      exact List.nodup_cons.2 ⟨hmem, htl⟩

theorem alookup_eq_none_of_not_mem {α β : Type} [DecidableEq α]
    (l : List (α × β)) (k : α) (h : k ∉ akeys l) : alookup l k = none := by
  induction l with
  | nil => rfl
  | cons hd tl ih =>
    obtain ⟨k₀, v₀⟩ := hd
    simp only [akeys, List.map_cons, List.mem_cons, not_or] at h
    simp [alookup, h.1, ih h.2]

theorem alookup_aremove_self {α β : Type} [DecidableEq α]
    (l : List (α × β)) (k : α) (h : (akeys l).Nodup) :
    alookup (aremove l k) k = none := by
  induction l with
  | nil => simp [aremove]
  | cons hd tl ih =>
    obtain ⟨k₀, v₀⟩ := hd
    simp only [akeys, List.map_cons, List.nodup_cons] at h
    by_cases hk : k = k₀
    · subst hk
      simp only [aremove, if_pos rfl]
      exact alookup_eq_none_of_not_mem tl _ h.1
    · simp [aremove, hk, alookup, ih h.2]

/-- Number of bindings of key `k` in an association list. -/
def acount {α β : Type} [DecidableEq α] (l : List (α × β)) (k : α) : Nat :=
  (l.filter (fun p => p.1 = k)).length

theorem acount_le_one_of_nodup {α β : Type} [DecidableEq α]
    (l : List (α × β)) (k : α) (h : (akeys l).Nodup) : acount l k ≤ 1 := by
  induction l with
  | nil => simp [acount]
  | cons hd tl ih =>
    obtain ⟨k₀, v₀⟩ := hd
    simp only [akeys, List.map_cons, List.nodup_cons] at h
    by_cases hk : k₀ = k
    · subst hk
      have h0 : acount tl k₀ = 0 := by
        simp only [acount, List.length_eq_zero, List.filter_eq_nil_iff]
        intro p hp hkp
        exact h.1 (by
          simp only [decide_eq_true_eq] at hkp
          exact hkp ▸ List.mem_map_of_mem Prod.fst hp)
      simp only [acount, List.filter_cons] at h0 ⊢
      simp only [decide_eq_true_eq]
      rw [if_pos trivial]
      simp only [List.length_cons]
      omega
    · simp only [acount, List.filter_cons]
      have : ((k₀, v₀).1 = k) = False := by simp [hk]
      simp only [this, decide_False, Bool.false_eq_true, if_false]
      exact ih h.2

/-! ### `AsyncJavaCallbacks` state (`utils.py`, `__init__`)

`self.futures` maps a key to an `asyncio` future; `self.states` records the
latest `(failure_str, *data)` tuple per key.  Futures are mutable heap
objects, so the heap `slotv` maps a future id to its content: `none` while
the future is pending, `some (.ok data)` after `set_result(data)`,
`some (.error e)` after `set_exception(e)`.  Fresh futures returned by
`loop.create_future()` get id `nextId`. -/

instance {ε α : Type} [DecidableEq ε] [DecidableEq α] : DecidableEq (Except ε α) :=
  fun x y =>
  match x, y with
  | Except.ok a, Except.ok b =>
    if h : a = b then Decidable.isTrue (congrArg Except.ok h)
    else Decidable.isFalse (fun hc => h (Except.ok.inj hc))
  | Except.error a, Except.error b =>
    if h : a = b then Decidable.isTrue (congrArg Except.error h)
    else Decidable.isFalse (fun hc => h (Except.error.inj hc))
  | Except.ok _, Except.error _ => Decidable.isFalse (fun hc => Except.noConfusion hc)
  | Except.error _, Except.ok _ => Decidable.isFalse (fun hc => Except.noConfusion hc)

structure CBState where
  nextId : Nat
  slotv : List (Nat × Option (Except PyErr Payload))
  futures : List (Key × Nat)
  states : List (Key × (Option String × Payload))
deriving DecidableEq, Repr

/-- The content of future `fid`: `none` if the future does not exist or is
pending (`not future.done()`), `some v` if it is done with outcome `v`. -/
def slotVal (st : CBState) (fid : Nat) : Option (Except PyErr Payload) :=
  (alookup st.slotv fid).bind id

/-- Models `future.set_result(v)` / `future.set_exception(e)` on future `fid`. -/
def setSlot (st : CBState) (fid : Nat) (v : Except PyErr Payload) : CBState :=
  { st with slotv := ainsert st.slotv fid (some v) }

/-- Models `AsyncJavaCallbacks._if_expected(result, expected)`:
`result[:len(expected)] == expected[:]` yields the remainder
`result[len(expected):]`, otherwise Python `None`. -/
def if_expected (result expected : Payload) : Option Payload :=
  if result.take expected.length = expected then some (result.drop expected.length)
  else none

/-- The `BleakError(source, failure_str, *data)` raised/stored by
`_result_state_unthreadsafe`. -/
def stateErr (source : Key) (failure_str : String) (data : Payload) : PyErr :=
  .bleakError (source.str :: failure_str :: data)

/-- The pending entries of `self.futures`, as computed by the comprehension
`[namedfuture for namedfuture in self.futures.items() if not namedfuture[1].done()]`. -/
def pendingNamed (st : CBState) : List (Key × Nat) :=
  st.futures.filter (fun kv => decide (slotVal st kv.2 = none))

/-- Models the `else` branch of `_result_state_unthreadsafe` (no pending
future registered under `source`): a success result is dropped; an error with
at least one other pending future evaluates `warnings.warn(...)`, which raises
`NameError` because `utils.py` never imports `warnings` (so no
`set_exception` is reached); with nothing pending at all, the `BleakError`
is raised on the calling thread. -/
def orphanCase (st1 : CBState) (failure_str : Option String)
    (source : Key) (data : Payload) : CBState × Option PyErr :=
  match failure_str with
  | none => (st1, none)
  | some f =>
    if (pendingNamed st1).length ≠ 0 then
      -- `warnings.warn(...)`: NameError, `warnings` is not imported
      (st1, some (PyErr.nameError "warnings"))
    else
      -- `raise exception` on the event thread
      (st1, some (stateErr source f data))

/-- Models `AsyncJavaCallbacks._result_state_unthreadsafe(failure_str, source,
data)`: records `self.states[source] = (failure_str, *data)`, then resolves
the registered future for `source` when it exists and is not done
(`set_result(data)` on success, `set_exception(BleakError(source,
failure_str, *data))` on failure), and otherwise falls to `orphanCase`.
Returns the updated state together with the exception escaping the call,
if any.  Note that no branch ever removes a key from `self.futures`. -/
def result_state_unthreadsafe (st : CBState) (failure_str : Option String)
    (source : Key) (data : Payload) : CBState × Option PyErr :=
  let st1 : CBState := { st with states := ainsert st.states source (failure_str, data) }
  match alookup st1.futures source with
  | some fid =>
    if slotVal st1 fid = none then
      -- `future is not None and not future.done()`
      match failure_str with
      | none => (setSlot st1 fid (Except.ok data), none)
      | some f => (setSlot st1 fid (Except.error (stateErr source f data)), none)
    else orphanCase st1 failure_str source data
  | none => orphanCase st1 failure_str source data

/-! ### `AsyncJavaCallbacks.perform_and_wait`

The coroutine is split at its single `await state`.  Everything up to the
await — the `unless_already` fast path, `loop.create_future()`,
`self.futures[resultApi] = state`, the `dispatchApi(*dispatchParams)` call
and the `return_indicates_status` rejection check — is
`perform_and_wait_start`.  The native call itself is external, so its
immediate acknowledgment is the parameter `dispatchAck`; `dispatchCount`
counts how many times `dispatchApi` was invoked.  The code after the await
is `perform_and_wait_finish`. -/

/-- The outcome of the pre-await phase of `perform_and_wait`. -/
inductive StartOutcome
  /-- The `unless_already` fast path was taken: `state.done()` held and
  `_if_expected(state.result(), resultExpected)` was not `None`; the
  coroutine never awaits and returns immediately
  (`result1 = bool(result2)`). -/
  | fastPath (result1 : Bool) (result2 : Payload)
  /-- The `unless_already` fast path found a done future whose
  `state.result()` re-raised a stored exception. -/
  | fastErr (e : PyErr)
  /-- `return_indicates_status and not result1`: the slot was deleted from
  `self.futures` and `BleakError` was raised without awaiting. -/
  | rejected (e : PyErr)
  /-- A fresh future `fid` was registered and the coroutine suspends in
  `await state`. -/
  | awaiting (fid : Nat) (result1 : Bool)
deriving DecidableEq, Repr

structure StartResult where
  st : CBState
  outcome : StartOutcome
  dispatchCount : Nat
deriving DecidableEq, Repr

/-- Models the `unless_already and resultApi in self.futures` check of
`perform_and_wait`: `none` means fall through to the slow path with
`result2 = None`; `some (.error e)` means `state.result()` raised `e`;
`some (.ok r)` means `result2 = r` (where Python `None` is `Option.none`,
i.e. the prefix did not match and the slow path is taken anyway). -/
def fastCheck (st : CBState) (resultApi : Key) (resultExpected : Payload)
    (unless_already : Bool) : Option (Except PyErr (Option Payload)) :=
  if unless_already then
    match alookup st.futures resultApi with
    | some fid =>
      match slotVal st fid with
      | some (Except.ok v) => some (Except.ok (if_expected v resultExpected))
      | some (Except.error e) => some (Except.error e)
      | none => none
    | none => none
  else none

/-- Models `perform_and_wait` up to (and excluding) `await state`. -/
def perform_and_wait_start (st : CBState) (dispatchAck : Bool) (resultApi : Key)
    (resultExpected : Payload) (unless_already return_indicates_status : Bool) :
    StartResult :=
  match fastCheck st resultApi resultExpected unless_already with
  | some (Except.error e) => ⟨st, StartOutcome.fastErr e, 0⟩
  | some (Except.ok (some r2)) => ⟨st, StartOutcome.fastPath (!r2.isEmpty) r2, 0⟩
  | _ =>
    -- `state = self._loop.create_future(); self.futures[resultApi] = state`
    let fid := st.nextId
    let st1 : CBState := { st with
      nextId := fid + 1
      slotv := ainsert st.slotv fid none
      futures := ainsert st.futures resultApi fid }
    -- `result1 = dispatchApi(*dispatchParams)`
    if return_indicates_status && !dispatchAck then
      -- `del self.futures[resultApi]; raise BleakError(...)`
      ⟨{ st1 with futures := aremove st1.futures resultApi },
       StartOutcome.rejected (PyErr.bleakError
         ["api call failed, not waiting for " ++ resultApi.str]), 1⟩
    else
      ⟨st1, StartOutcome.awaiting fid dispatchAck, 1⟩

/-- Models `perform_and_wait` from `await state` to the end, given the value
the awaited future resolved to.  On a payload whose leading fields do not
match `resultExpected`, the code executes
`raise BleakError('Expected', resultExpected, 'got', result)` — but no
variable named `result` exists in the function, so evaluating the arguments
raises `NameError: name 'result' is not defined` instead. -/
def perform_and_wait_finish (resolved : Except PyErr Payload)
    (resultExpected : Payload) (result1 return_indicates_status : Bool) :
    Except PyErr Payload :=
  match resolved with
  | Except.error e => Except.error e
  | Except.ok v =>
    match if_expected v resultExpected with
    | none => Except.error (PyErr.nameError "result")
    | some r2 =>
      Except.ok (if return_indicates_status then r2
                 else (if result1 then "True" else "False") :: r2)

/-! ### `client.py`: `_PythonBluetoothGattCallback` and `BleakClientP4Android` -/

/-- `BluetoothProfile` connection-state constants (Android SDK values used
by `CONNECTION_STATE_NAMES` in `client.py`). -/
def STATE_DISCONNECTED : Nat := 0

def STATE_CONNECTING : Nat := 1

def STATE_CONNECTED : Nat := 2

def STATE_DISCONNECTING : Nat := 3

/-- `_java.GATT_SUCCESS = 0x0000`. -/
def GATT_SUCCESS : Nat := 0

/-- `CONNECTION_STATE_NAMES.get(new_state, new_state)`: the four named
states, with the raw integer as fallback. -/
def connectionStateName (n : Nat) : String :=
  if n = STATE_DISCONNECTED then "STATE_DISCONNECTED"
  else if n = STATE_CONNECTING then "STATE_CONNECTING"
  else if n = STATE_CONNECTED then "STATE_CONNECTED"
  else if n = STATE_DISCONNECTING then "STATE_DISCONNECTING"
  else toString n

/-- `GATT_STATUS_NAMES.get(status, status)` restricted to the entries the
claims exercise, with the raw integer as fallback (the full table in
`client.py` is a literal dictionary of the same shape). -/
def gattStatusName (status : Nat) : String :=
  if status = 0x0001 then "GATT_INVALID_HANDLE"
  else if status = 0x0085 then "GATT_ERROR"
  else if status = 0x0101 then "GATT_FAILURE"
  else toString status

/-- Threads on which embedded code can run: the Java native callback thread,
or the asyncio event-loop thread owned by the client. -/
inductive Thread
  | java
  | eventLoop
deriving DecidableEq, Repr

/-- A user-visible callback invocation: which callback object was called and
on which thread. -/
structure CallRecord where
  cb : Nat
  thread : Thread
deriving DecidableEq, Repr

/-- The state of a `BleakClientP4Android` together with its
`_PythonBluetoothGattCallback`: the inherited `AsyncJavaCallbacks` state, the
`self._subscriptions` registry (characteristic handle to notification
callback, callbacks named by ids), and `self._disconnected_callback`. -/
structure ClientState where
  cb : CBState
  subscriptions : List (Nat × Nat)
  disconnected_callback : Option Nat
deriving DecidableEq, Repr

/-- Models `_PythonBluetoothGattCallback.result_state(status, resultApi,
*data)`: translates the status to `failure_str` and marshals
`_result_state_unthreadsafe` onto the event loop with
`self._loop.call_soon_threadsafe`.  The returned pair is the effect once the
event loop runs the marshaled call. -/
def result_state (st : CBState) (status : Nat) (resultApi : Key) (data : Payload) :
    CBState × Option PyErr :=
  let failure_str := if status = GATT_SUCCESS then none else some (gattStatusName status)
  result_state_unthreadsafe st failure_str resultApi data

/-- Models `_PythonBluetoothGattCallback.onConnectionStateChange(status,
new_state)`, which runs on the Java callback thread: it marshals the state
transfer onto the event loop via `result_state`, and then — still on the
Java thread — directly invokes `self._client._disconnected_callback(...)`
when the new state is `STATE_DISCONNECTED` and a callback is set.  Returns
the client state after the marshaled call has run on the loop, together with
the user-callback invocations in order, each tagged with the thread it ran
on. -/
def onConnectionStateChange (st : ClientState) (status new_state : Nat) :
    ClientState × List CallRecord :=
  let stateName := connectionStateName new_state
  let cb1 := (result_state st.cb status (Key.api "onConnectionStateChange") [stateName]).1
  let st1 : ClientState := { st with cb := cb1 }
  let calls : List CallRecord :=
    if stateName = "STATE_DISCONNECTED" then
      match st.disconnected_callback with
      | some c => [⟨c, Thread.java⟩]
      | none => []
    else []
  (st1, calls)

/-- Models `_PythonBluetoothGattCallback.onCharacteristicChanged(handle,
value)`: looks up `self._client._subscriptions[handle]` and marshals that
callback onto the event loop with `call_soon_threadsafe`.  Returns the
invocation record (the callback runs on the event loop), or `none` when the
handle has no subscription (in Python a `KeyError` on the Java thread). -/
def onCharacteristicChanged (st : ClientState) (handle : Nat) :
    Option CallRecord :=
  match alookup st.subscriptions handle with
  | some c => some ⟨c, Thread.eventLoop⟩
  | none => none

/-- Models the Subscription Registry effect of
`BleakClientP4Android.start_notify`: the unconditional assignment
`self._subscriptions[characteristic.handle] = callback` (the native
notification enabling that follows does not touch the registry). -/
def start_notify_reg (subs : List (Nat × Nat)) (handle cbId : Nat) :
    List (Nat × Nat) :=
  ainsert subs handle cbId

/-- Models `BleakClientP4Android.is_connected`:
`self.__callbacks is not None and
self.__callbacks.states['onConnectionStateChange'][1] == 'STATE_DISCONNECTED'`.
A missing key raises `KeyError`; `[1]` on the 1-tuple `(failure_str,)`
raises `IndexError` when the recorded data tuple is empty. -/
def is_connected (callbacksPresent : Bool)
    (states : List (Key × (Option String × Payload))) : Except String Bool :=
  if !callbacksPresent then Except.ok false
  else
    match alookup states (Key.api "onConnectionStateChange") with
    | none => Except.error "KeyError"
    | some (_, []) => Except.error "IndexError"
    | some (_, s :: _) => Except.ok (s = "STATE_DISCONNECTED")

/-- Models the return value of `BleakClientP4Android.disconnect`: `True`
immediately when `self.__gatt is None`, otherwise
`is_disconnected = not await self.is_connected()` computed on the state left
after the disconnect attempt, and returned as the result. -/
def disconnect_result (gattPresent callbacksPresent : Bool)
    (states : List (Key × (Option String × Payload))) : Except String Bool :=
  if !gattPresent then Except.ok true
  else
    match is_connected callbacksPresent states with
    | Except.ok b => Except.ok (!b)
    | Except.error e => Except.error e

/-! ### Helper lemmas -/

theorem orphanCase_fst (st1 : CBState) (f : Option String) (k : Key) (d : Payload) :
    (orphanCase st1 f k d).1 = st1 := by
  unfold orphanCase
  cases f with
  | none => rfl
  | some s => by_cases h : (pendingNamed st1).length ≠ 0 <;> simp [h]

theorem slotVal_states (st : CBState) (s : List (Key × (Option String × Payload)))
    (fid : Nat) : slotVal { st with states := s } fid = slotVal st fid := rfl

theorem result_state_futures_eq (st : CBState) (f : Option String) (k : Key)
    (d : Payload) : (result_state_unthreadsafe st f k d).1.futures = st.futures := by
  simp only [result_state_unthreadsafe]
  cases halo : alookup st.futures k with
  | none => simp [halo, orphanCase_fst]
  | some fid =>
    by_cases hp : slotVal st fid = none
    · simp [halo, slotVal_states, hp, setSlot]
      cases f <;> simp [setSlot]
    · simp [halo, slotVal_states, hp, orphanCase_fst]

theorem result_state_slotv_of_done (st : CBState) (f : Option String) (k : Key)
    (d : Payload) (fid : Nat) (v : Except PyErr Payload)
    (hreg : alookup st.futures k = some fid) (hdone : slotVal st fid = some v) :
    (result_state_unthreadsafe st f k d).1.slotv = st.slotv := by
  simp only [result_state_unthreadsafe]
  simp [hreg, slotVal_states, hdone, orphanCase_fst]

theorem result_state_slotv_of_absent (st : CBState) (f : Option String) (k : Key)
    (d : Payload) (hreg : alookup st.futures k = none) :
    (result_state_unthreadsafe st f k d).1.slotv = st.slotv := by
  simp only [result_state_unthreadsafe]
  simp [hreg, orphanCase_fst]

theorem result_state_of_pending (st : CBState) (f : Option String) (k : Key)
    (d : Payload) (fid : Nat)
    (hreg : alookup st.futures k = some fid) (hpend : slotVal st fid = none) :
    (result_state_unthreadsafe st f k d).1.slotv =
      ainsert st.slotv fid (some (match f with
        | none => Except.ok d
        | some s => Except.error (stateErr k s d))) := by
  simp only [result_state_unthreadsafe]
  simp only [slotVal_states]
  cases f <;> simp [hreg, hpend, setSlot]

/-! ### Claims -/

/-- Tests whether a pre-await outcome is the dispatch-rejection path. -/
def StartOutcome.isRejected : StartOutcome → Bool
  | StartOutcome.rejected _ => true
  | _ => false

/-- C1, counterexample: the claim says a second `perform_and_wait` for a key
whose slot is still outstanding either reuses that pending slot or is
rejected, and never silently registers a second slot the dispatcher cannot
address.  Concretely: from the empty state, a first dedup call for
`'onConnectionStateChange'` registers future 0 and awaits it; a second dedup
call for the same key is neither a reuse of future 0 nor a rejection — it
silently registers fresh future 1, rebinding `self.futures` to it, while
future 0 is still unset and no longer reachable by the dispatcher. -/
theorem C1_counterexample :
    (perform_and_wait_start ⟨0, [], [], []⟩ true (Key.api "onConnectionStateChange")
      [] true true).outcome = StartOutcome.awaiting 0 true ∧
    (perform_and_wait_start (perform_and_wait_start ⟨0, [], [], []⟩ true
      (Key.api "onConnectionStateChange") [] true true).st true
      (Key.api "onConnectionStateChange") [] true true).outcome =
        StartOutcome.awaiting 1 true ∧
    StartOutcome.isRejected (perform_and_wait_start (perform_and_wait_start
      ⟨0, [], [], []⟩ true (Key.api "onConnectionStateChange") [] true true).st true
      (Key.api "onConnectionStateChange") [] true true).outcome = false ∧
    slotVal (perform_and_wait_start (perform_and_wait_start ⟨0, [], [], []⟩ true
      (Key.api "onConnectionStateChange") [] true true).st true
      (Key.api "onConnectionStateChange") [] true true).st 0 = none ∧
    alookup (perform_and_wait_start (perform_and_wait_start ⟨0, [], [], []⟩ true
      (Key.api "onConnectionStateChange") [] true true).st true
      (Key.api "onConnectionStateChange") [] true true).st.futures
      (Key.api "onConnectionStateChange") = some 1 := by
  constructor
  · decide
  constructor
  · decide
  constructor
  · decide
  constructor
  · decide
  · decide

/-- C1 amended: only a *done* slot is ever reused (by the dedup fast path);
a second `perform_and_wait` for a key whose slot is outstanding and not yet
done silently allocates a fresh future and rebinds the table entry to it —
regardless of `unless_already` — so the dispatcher can address only the new
slot, the first caller's future stays unset forever, and a second native
dispatch is issued. -/
theorem C1_amended_pending_slot_is_replaced (st : CBState) (k : Key)
    (exp : Payload) (ua ris : Bool) (fid : Nat)
    (hreg : alookup st.futures k = some fid)
    (hpend : slotVal st fid = none)
    (hfresh : fid ≠ st.nextId) :
    (perform_and_wait_start st true k exp ua ris).outcome =
      StartOutcome.awaiting st.nextId true ∧
    alookup (perform_and_wait_start st true k exp ua ris).st.futures k =
      some st.nextId ∧
    slotVal (perform_and_wait_start st true k exp ua ris).st fid = none ∧
    st.nextId ≠ fid ∧
    (perform_and_wait_start st true k exp ua ris).dispatchCount = 1 := by
  have hfc : fastCheck st k exp ua = none := by
    cases ua <;> simp [fastCheck, hreg, hpend]
  have hone : (ris && !true) = false := by simp
  refine ⟨?_, ?_, ?_, Ne.symm hfresh, ?_⟩ <;>
    simp [perform_and_wait_start, hfc, hone, slotVal,
      alookup_ainsert_self, alookup_ainsert_ne _ _ _ _ hfresh]
  simpa [slotVal] using hpend

/-- C1 amended, witness at a concrete input: a state with pending future 0
registered for key `w1` (as left by a first call); the second dedup call
allocates future 1. -/
theorem C1_amended_witness :
    (perform_and_wait_start ⟨1, [(0, none)], [(Key.api "w1", 0)], []⟩ true
      (Key.api "w1") [] true true).outcome = StartOutcome.awaiting 1 true ∧
    alookup (perform_and_wait_start ⟨1, [(0, none)], [(Key.api "w1", 0)], []⟩ true
      (Key.api "w1") [] true true).st.futures (Key.api "w1") = some 1 ∧
    slotVal (perform_and_wait_start ⟨1, [(0, none)], [(Key.api "w1", 0)], []⟩ true
      (Key.api "w1") [] true true).st 0 = none ∧
    (1 : Nat) ≠ 0 ∧
    (perform_and_wait_start ⟨1, [(0, none)], [(Key.api "w1", 0)], []⟩ true
      (Key.api "w1") [] true true).dispatchCount = 1 :=
  C1_amended_pending_slot_is_replaced ⟨1, [(0, none)], [(Key.api "w1", 0)], []⟩
    (Key.api "w1") [] true true 0 (by decide) (by decide) (by decide)

/-- C2, counterexample: the claim says two dedup (`unless_already=True`)
calls with the same key, the second starting while the first is *in flight*
or already resolved, issue exactly one native dispatch in total.  In the
in-flight case the dedup check `state.done()` is false, so the second call
falls through to the slow path and dispatches again: from the empty state,
two back-to-back dedup calls for key `c2k` issue two native calls. -/
theorem C2_counterexample :
    (perform_and_wait_start ⟨0, [], [], []⟩ true (Key.api "c2k") [] true
      true).dispatchCount +
    (perform_and_wait_start (perform_and_wait_start ⟨0, [], [], []⟩ true
      (Key.api "c2k") [] true true).st true (Key.api "c2k") [] true
      true).dispatchCount = 2 := by decide

/-- C2 amended: the dedup fast path only covers a slot that is already
*resolved* matching the expected leading fields.  When the second dedup call
starts after the first call's slot has resolved with a matching payload,
exactly one native dispatch is issued in total and both callers receive the
same stripped payload; a second call that starts while the first is still in
flight instead issues a second native dispatch. -/
theorem C2_amended_dedup_after_resolution (st0 : CBState) (k : Key)
    (exp payload p : Payload)
    (h0 : alookup st0.futures k = none)
    (hm : if_expected payload exp = some p) :
    (perform_and_wait_start st0 true k exp true true).outcome =
      StartOutcome.awaiting st0.nextId true ∧
    slotVal (result_state_unthreadsafe
      (perform_and_wait_start st0 true k exp true true).st none k payload).1
      st0.nextId = some (Except.ok payload) ∧
    perform_and_wait_finish (Except.ok payload) exp true true = Except.ok p ∧
    (perform_and_wait_start (result_state_unthreadsafe
      (perform_and_wait_start st0 true k exp true true).st none k payload).1
      true k exp true true).outcome = StartOutcome.fastPath (!p.isEmpty) p ∧
    (perform_and_wait_start st0 true k exp true true).dispatchCount +
      (perform_and_wait_start (result_state_unthreadsafe
        (perform_and_wait_start st0 true k exp true true).st none k payload).1
        true k exp true true).dispatchCount = 1 := by
  have hfc : fastCheck st0 k exp true = none := by simp [fastCheck, h0]
  have hr1 : perform_and_wait_start st0 true k exp true true =
      ⟨⟨st0.nextId + 1, ainsert st0.slotv st0.nextId none,
        ainsert st0.futures k st0.nextId, st0.states⟩,
       StartOutcome.awaiting st0.nextId true, 1⟩ := by
    simp [perform_and_wait_start, hfc]
  have hr2 : (result_state_unthreadsafe
      (perform_and_wait_start st0 true k exp true true).st none k payload).1 =
      ⟨st0.nextId + 1,
        ainsert (ainsert st0.slotv st0.nextId none) st0.nextId
          (some (Except.ok payload)),
        ainsert st0.futures k st0.nextId,
        ainsert st0.states k (none, payload)⟩ := by
    rw [hr1]
    simp [result_state_unthreadsafe, alookup_ainsert_self, slotVal, setSlot]
  refine ⟨by rw [hr1], ?_, ?_, ?_, ?_⟩
  · rw [hr2]
    simp [slotVal, alookup_ainsert_self]
  · simp [perform_and_wait_finish, hm]
  · rw [hr2]
    simp [perform_and_wait_start, fastCheck, alookup_ainsert_self, slotVal, hm]
  · rw [hr2, hr1]
    simp [perform_and_wait_start, fastCheck, alookup_ainsert_self, slotVal, hm]

/-- C2 amended, witness at a concrete input: key `w2`, expected leading
field `"A"`, resolving payload `("A", "B")`, stripped payload `("B",)`. -/
theorem C2_amended_witness :
    (perform_and_wait_start ⟨0, [], [], []⟩ true (Key.api "w2") ["A"] true
      true).outcome = StartOutcome.awaiting 0 true ∧
    slotVal (result_state_unthreadsafe
      (perform_and_wait_start ⟨0, [], [], []⟩ true (Key.api "w2") ["A"] true
        true).st none (Key.api "w2") ["A", "B"]).1 0 =
      some (Except.ok ["A", "B"]) ∧
    perform_and_wait_finish (Except.ok ["A", "B"]) ["A"] true true =
      Except.ok ["B"] ∧
    (perform_and_wait_start (result_state_unthreadsafe
      (perform_and_wait_start ⟨0, [], [], []⟩ true (Key.api "w2") ["A"] true
        true).st none (Key.api "w2") ["A", "B"]).1 true (Key.api "w2") ["A"]
      true true).outcome = StartOutcome.fastPath (!(["B"] : Payload).isEmpty) ["B"] ∧
    (perform_and_wait_start ⟨0, [], [], []⟩ true (Key.api "w2") ["A"] true
      true).dispatchCount +
      (perform_and_wait_start (result_state_unthreadsafe
        (perform_and_wait_start ⟨0, [], [], []⟩ true (Key.api "w2") ["A"] true
          true).st none (Key.api "w2") ["A", "B"]).1 true (Key.api "w2") ["A"]
        true true).dispatchCount = 1 :=
  C2_amended_dedup_after_resolution ⟨0, [], [], []⟩ (Key.api "w2") ["A"]
    ["A", "B"] ["B"] (by decide) (by decide)

/-- C3, counterexample: the claim says an unsolicited disconnect event fails
all pending slots with a Disconnected error, clears the Subscription
Registry to size 0, and invokes the disconnect callback once.  Concretely:
with two pending slots (futures 0 and 1 for `'onServicesDiscovered'` and
`('onCharacteristicRead', 5)`), one subscription, and a disconnect callback
installed, the event `onConnectionStateChange(GATT_SUCCESS,
STATE_DISCONNECTED)` arrives with nothing awaiting that key.  Afterwards
both slots are still pending (not failed), the registry still has 1 entry,
and only the callback invocation happened. -/
theorem C3_counterexample :
    slotVal (onConnectionStateChange
      ⟨⟨2, [(0, none), (1, none)],
        [(Key.api "onServicesDiscovered", 0), (Key.apiH "onCharacteristicRead" 5, 1)], []⟩,
       [(5, 100)], some 7⟩ GATT_SUCCESS STATE_DISCONNECTED).1.cb 0 = none ∧
    slotVal (onConnectionStateChange
      ⟨⟨2, [(0, none), (1, none)],
        [(Key.api "onServicesDiscovered", 0), (Key.apiH "onCharacteristicRead" 5, 1)], []⟩,
       [(5, 100)], some 7⟩ GATT_SUCCESS STATE_DISCONNECTED).1.cb 1 = none ∧
    (onConnectionStateChange
      ⟨⟨2, [(0, none), (1, none)],
        [(Key.api "onServicesDiscovered", 0), (Key.apiH "onCharacteristicRead" 5, 1)], []⟩,
       [(5, 100)], some 7⟩ GATT_SUCCESS STATE_DISCONNECTED).1.subscriptions.length = 1 ∧
    (onConnectionStateChange
      ⟨⟨2, [(0, none), (1, none)],
        [(Key.api "onServicesDiscovered", 0), (Key.apiH "onCharacteristicRead" 5, 1)], []⟩,
       [(5, 100)], some 7⟩ GATT_SUCCESS STATE_DISCONNECTED).2 = [⟨7, Thread.java⟩] := by
  refine ⟨?_, ?_, ?_, ?_⟩ <;> decide

/-- C3 amended: an unsolicited disconnect event delivered with success
status (`onConnectionStateChange(GATT_SUCCESS, STATE_DISCONNECTED)` while no
unset slot is registered for that key) leaves every pending Result Slot
pending, leaves the futures table and the Subscription Registry completely
unchanged, and invokes the user's disconnect callback exactly once (directly
on the Java thread). -/
theorem C3_amended_unsolicited_disconnect_only_invokes_callback
    (st : ClientState) (c : Nat)
    (hdc : st.disconnected_callback = some c)
    (hunsol : match alookup st.cb.futures (Key.api "onConnectionStateChange") with
      | none => True
      | some fid => slotVal st.cb fid ≠ none) :
    (onConnectionStateChange st GATT_SUCCESS STATE_DISCONNECTED).1.cb.slotv =
      st.cb.slotv ∧
    (onConnectionStateChange st GATT_SUCCESS STATE_DISCONNECTED).1.cb.futures =
      st.cb.futures ∧
    (onConnectionStateChange st GATT_SUCCESS STATE_DISCONNECTED).1.subscriptions =
      st.subscriptions ∧
    (onConnectionStateChange st GATT_SUCCESS STATE_DISCONNECTED).2 =
      [⟨c, Thread.java⟩] := by
  have hslot : (result_state_unthreadsafe st.cb none
      (Key.api "onConnectionStateChange") ["STATE_DISCONNECTED"]).1.slotv =
      st.cb.slotv := by
    cases halo : alookup st.cb.futures (Key.api "onConnectionStateChange") with
    | none => exact result_state_slotv_of_absent _ _ _ _ halo
    | some fid =>
      rw [halo] at hunsol
      obtain ⟨v, hv⟩ := Option.ne_none_iff_exists'.mp hunsol
      exact result_state_slotv_of_done _ _ _ _ fid v halo hv
  refine ⟨?_, ?_, ?_, ?_⟩ <;>
    simp [onConnectionStateChange, result_state, GATT_SUCCESS, STATE_DISCONNECTED,
      connectionStateName, hdc, hslot, result_state_futures_eq]

/-- C3 amended, witness at a concrete input: one pending slot (future 0 for
`'onServicesDiscovered'`), one subscription, disconnect callback 9. -/
theorem C3_amended_witness :
    (onConnectionStateChange
      ⟨⟨1, [(0, none)], [(Key.api "onServicesDiscovered", 0)], []⟩,
       [(5, 100)], some 9⟩ GATT_SUCCESS STATE_DISCONNECTED).1.cb.slotv =
      [(0, none)] ∧
    (onConnectionStateChange
      ⟨⟨1, [(0, none)], [(Key.api "onServicesDiscovered", 0)], []⟩,
       [(5, 100)], some 9⟩ GATT_SUCCESS STATE_DISCONNECTED).1.cb.futures =
      [(Key.api "onServicesDiscovered", 0)] ∧
    (onConnectionStateChange
      ⟨⟨1, [(0, none)], [(Key.api "onServicesDiscovered", 0)], []⟩,
       [(5, 100)], some 9⟩ GATT_SUCCESS STATE_DISCONNECTED).1.subscriptions =
      [(5, 100)] ∧
    (onConnectionStateChange
      ⟨⟨1, [(0, none)], [(Key.api "onServicesDiscovered", 0)], []⟩,
       [(5, 100)], some 9⟩ GATT_SUCCESS STATE_DISCONNECTED).2 =
      [⟨9, Thread.java⟩] :=
  C3_amended_unsolicited_disconnect_only_invokes_callback
    ⟨⟨1, [(0, none)], [(Key.api "onServicesDiscovered", 0)], []⟩,
     [(5, 100)], some 9⟩ 9 rfl (by trivial)

/-- C8: re-subscription policy.  `start_notify` on a characteristic handle
that already has an active callback does not fail: the registry assignment
`self._subscriptions[characteristic.handle] = callback` replaces the entry,
so the new callback becomes the sole active handler — a later
`onCharacteristicChanged` for that handle invokes it (marshaled onto the
event loop) and can never invoke the previously registered callback again —
and the registry keeps at most one subscription per characteristic
identity. -/
theorem C8_resubscription_replaces_handler (subs : List (Nat × Nat))
    (h cb1 cb2 : Nat) (cbst : CBState) (dc : Option Nat)
    (hnodup : (akeys subs).Nodup) (_hsub : alookup subs h = some cb1)
    (hne : cb1 ≠ cb2) :
    alookup (start_notify_reg subs h cb2) h = some cb2 ∧
    onCharacteristicChanged ⟨cbst, start_notify_reg subs h cb2, dc⟩ h =
      some ⟨cb2, Thread.eventLoop⟩ ∧
    (onCharacteristicChanged ⟨cbst, start_notify_reg subs h cb2, dc⟩ h).map
      CallRecord.cb ≠ some cb1 ∧
    (akeys (start_notify_reg subs h cb2)).Nodup ∧
    acount (start_notify_reg subs h cb2) h ≤ 1 := by
  have hl : alookup (start_notify_reg subs h cb2) h = some cb2 :=
    alookup_ainsert_self subs h cb2
  refine ⟨hl, ?_, ?_, akeys_ainsert_nodup _ _ _ hnodup,
    acount_le_one_of_nodup _ _ (akeys_ainsert_nodup _ _ _ hnodup)⟩
  · simp [onCharacteristicChanged, hl]
  · simp [onCharacteristicChanged, hl, Ne.symm hne]

/-- C8, witness at a concrete input: handle 5 subscribed with callback 100,
re-subscribed with callback 200. -/
theorem C8_witness :
    alookup (start_notify_reg [(5, 100)] 5 200) 5 = some 200 ∧
    onCharacteristicChanged ⟨⟨0, [], [], []⟩, start_notify_reg [(5, 100)] 5 200,
      none⟩ 5 = some ⟨200, Thread.eventLoop⟩ ∧
    (onCharacteristicChanged ⟨⟨0, [], [], []⟩, start_notify_reg [(5, 100)] 5 200,
      none⟩ 5).map CallRecord.cb ≠ some 100 ∧
    (akeys (start_notify_reg [(5, 100)] 5 200)).Nodup ∧
    acount (start_notify_reg [(5, 100)] 5 200) 5 ≤ 1 :=
  C8_resubscription_replaces_handler [(5, 100)] 5 100 200 ⟨0, [], [], []⟩ none
    (by decide) (by decide) (by decide)

/-- C9, code bug: the claim (and the constructor docstring of
`BleakClientP4Android`, which promises the disconnected callback "will be
scheduled in the event loop") requires every user-callback invocation to be
marshaled onto the owning event-loop thread.  `onConnectionStateChange`
instead calls `self._client._disconnected_callback(self._client)` directly
on the Java callback thread, while a notification callback delivered through
`onCharacteristicChanged` *is* marshaled with `call_soon_threadsafe`.
Evaluated at the failing input `onConnectionStateChange(GATT_SUCCESS,
STATE_DISCONNECTED)` with callback 7 installed. -/
theorem C9_disconnect_callback_runs_on_java_thread :
    (onConnectionStateChange ⟨⟨0, [], [], []⟩, [], some 7⟩ GATT_SUCCESS
      STATE_DISCONNECTED).2 = [⟨7, Thread.java⟩] ∧
    onCharacteristicChanged ⟨⟨0, [], [], []⟩, [(5, 100)], none⟩ 5 =
      some ⟨100, Thread.eventLoop⟩ := by
  constructor <;> decide

/-- C10: `is_connected` returns (as a non-error result) `True` exactly when
the most recently recorded `onConnectionStateChange` state equals
`'STATE_DISCONNECTED'` — in particular `False` immediately after a
successful `connect()`, whose last recorded state is `'STATE_CONNECTED'` —
and `disconnect()` (when a GATT object exists) returns the negation of this
test as its device-is-disconnected result. -/
theorem C10_is_connected_tests_disconnected
    (sts : List (Key × (Option String × Payload))) (f : Option String)
    (s : String) (rest : Payload)
    (hrec : alookup sts (Key.api "onConnectionStateChange") = some (f, s :: rest)) :
    is_connected true sts = Except.ok (decide (s = "STATE_DISCONNECTED")) ∧
    (s = "STATE_CONNECTED" → is_connected true sts = Except.ok false) ∧
    disconnect_result true true sts =
      Except.ok (!(decide (s = "STATE_DISCONNECTED"))) := by
  have h1 : is_connected true sts = Except.ok (decide (s = "STATE_DISCONNECTED")) := by
    simp [is_connected, hrec]
  refine ⟨h1, ?_, ?_⟩
  · intro hs
    subst hs
    simpa using h1
  · simp [disconnect_result, h1]

/-- C10, witness at a concrete input: the state recorded by a successful
`connect()` (last `onConnectionStateChange` data `('STATE_CONNECTED',)`):
`is_connected` is `False` and `disconnect` would report `True`. -/
theorem C10_witness :
    is_connected true [(Key.api "onConnectionStateChange",
      (none, ["STATE_CONNECTED"]))] =
      Except.ok (decide (("STATE_CONNECTED" : String) = "STATE_DISCONNECTED")) ∧
    (("STATE_CONNECTED" : String) = "STATE_CONNECTED" →
      is_connected true [(Key.api "onConnectionStateChange",
        (none, ["STATE_CONNECTED"]))] = Except.ok false) ∧
    disconnect_result true true [(Key.api "onConnectionStateChange",
      (none, ["STATE_CONNECTED"]))] =
      Except.ok (!(decide (("STATE_CONNECTED" : String) = "STATE_DISCONNECTED"))) :=
  C10_is_connected_tests_disconnected
    [(Key.api "onConnectionStateChange", (none, ["STATE_CONNECTED"]))]
    none "STATE_CONNECTED" [] (by decide)

/-- C4, counterexample: the claim says a delivered callback sets the slot and
"then removes the key from the correlation table, so after any resolve the
table holds no entry for that key".  At the concrete input — one pending slot
(future 0) registered for key `c4`, a success callback with payload `["V"]` —
`_result_state_unthreadsafe` resolves the slot but `self.futures` still maps
`c4` to future 0 afterwards: no branch of the function deletes a key. -/
theorem C4_counterexample :
    slotVal (result_state_unthreadsafe ⟨1, [(0, none)], [(Key.api "c4", 0)], []⟩
      none (Key.api "c4") ["V"]).1 0 = some (Except.ok ["V"]) ∧
    alookup (result_state_unthreadsafe ⟨1, [(0, none)], [(Key.api "c4", 0)], []⟩
      none (Key.api "c4") ["V"]).1.futures (Key.api "c4") = some 0 := by
  constructor <;> decide

/-- C4 amended: delivering a callback for a key with a registered pending
slot sets the slot to resolved(payload) on success or failed(StatusError)
otherwise, but the key is *not* removed from the correlation table — the
futures table is left entirely unchanged by every resolution (the dedup fast
path of `perform_and_wait` depends on the retained entry), so the table is
bounded by the number of distinct keys ever registered rather than the
number of outstanding ones. -/
theorem C4_amended_resolve_sets_slot_and_keeps_entry (st : CBState)
    (f : Option String) (k : Key) (d : Payload) (fid : Nat)
    (hreg : alookup st.futures k = some fid) (hpend : slotVal st fid = none) :
    slotVal (result_state_unthreadsafe st f k d).1 fid =
      some (match f with
        | none => Except.ok d
        | some s => Except.error (stateErr k s d)) ∧
    (result_state_unthreadsafe st f k d).1.futures = st.futures := by
  refine ⟨?_, result_state_futures_eq st f k d⟩
  have h := result_state_of_pending st f k d fid hreg hpend
  unfold slotVal
  rw [h]
  simp

/-- C4 amended, witness at a concrete input: one pending slot (future 3)
registered for `('onCharacteristicRead', 7)`, resolved by a failure callback
with status label `GATT_ERROR`. -/
theorem C4_amended_witness :
    slotVal (result_state_unthreadsafe ⟨4, [(3, none)], [(Key.apiH "onCharacteristicRead" 7, 3)], []⟩
      (some "GATT_ERROR") (Key.apiH "onCharacteristicRead" 7) []).1 3 =
      some (Except.error (stateErr (Key.apiH "onCharacteristicRead" 7) "GATT_ERROR" [])) ∧
    (result_state_unthreadsafe ⟨4, [(3, none)], [(Key.apiH "onCharacteristicRead" 7, 3)], []⟩
      (some "GATT_ERROR") (Key.apiH "onCharacteristicRead" 7) []).1.futures =
      [(Key.apiH "onCharacteristicRead" 7, 3)] :=
  C4_amended_resolve_sets_slot_and_keeps_entry
    ⟨4, [(3, none)], [(Key.apiH "onCharacteristicRead" 7, 3)], []⟩
    (some "GATT_ERROR") (Key.apiH "onCharacteristicRead" 7) [] 3
    (by decide) (by decide)

/-- C5, code bug: when the awaited slot resolves successfully but the payload
does not match the caller's expected leading fields, `perform_and_wait`
executes `raise BleakError('Expected', resultExpected, 'got', result)` —
but `result` is not a variable of the function (the awaited value is bound
to no name; only `result1` and `result2` exist), so the caller receives
`NameError: name 'result' is not defined` instead of an error carrying the
got and expected values.  Evaluated here at the spec's own scenario: payload
`('STATE_CONNECTING',)` while expecting `('STATE_CONNECTED',)`. -/
theorem C5_unexpected_result_raises_nameerror :
    perform_and_wait_finish (Except.ok ["STATE_CONNECTING"]) ["STATE_CONNECTED"]
      true true = Except.error (PyErr.nameError "result") := by decide

/-- C6: at-most-once resolution.  Once the slot registered for key `k` is
done with outcome `v` (resolved or failed), any second callback delivery for
`k` is ignored or redirected but never overwrites the slot: it still holds
`v` afterwards, so the awaiting caller observes the first resolution. -/
theorem C6_at_most_once_resolution (st : CBState) (f : Option String) (k : Key)
    (d : Payload) (fid : Nat) (v : Except PyErr Payload)
    (hreg : alookup st.futures k = some fid)
    (hdone : slotVal st fid = some v) :
    slotVal (result_state_unthreadsafe st f k d).1 fid = some v := by
  have h := result_state_slotv_of_done st f k d fid v hreg hdone
  unfold slotVal
  rw [h]
  exact hdone

/-- C6, witness at a concrete input: future 0 for `'onServicesDiscovered'`
already resolved with payload `["X"]`; a duplicate success delivery with
payload `["Y"]` leaves the first value in place. -/
theorem C6_witness :
    slotVal (result_state_unthreadsafe
      ⟨1, [(0, some (Except.ok ["X"]))], [(Key.api "onServicesDiscovered", 0)], []⟩
      none (Key.api "onServicesDiscovered") ["Y"]).1 0 = some (Except.ok ["X"]) :=
  C6_at_most_once_resolution
    ⟨1, [(0, some (Except.ok ["X"]))], [(Key.api "onServicesDiscovered", 0)], []⟩
    none (Key.api "onServicesDiscovered") ["Y"] 0 (Except.ok ["X"])
    (by decide) (by decide)

/-- C7: dispatch-rejection atomicity.  With `return_indicates_status = True`
and a falsy immediate acknowledgment from the native dispatch call (and the
dedup fast path not taken), `perform_and_wait` deletes the slot it just
registered and raises `BleakError` without awaiting it — the outcome is
`rejected`, never `awaiting` — and afterwards the futures table holds no
entry for the key. -/
theorem C7_dispatch_rejection_atomicity (st : CBState) (k : Key) (exp : Payload)
    (ua : Bool) (hnodup : (akeys st.futures).Nodup)
    (hfast : fastCheck st k exp ua = none ∨
             fastCheck st k exp ua = some (Except.ok none)) :
    (perform_and_wait_start st false k exp ua true).outcome =
      StartOutcome.rejected (PyErr.bleakError
        ["api call failed, not waiting for " ++ k.str]) ∧
    alookup (perform_and_wait_start st false k exp ua true).st.futures k = none ∧
    (perform_and_wait_start st false k exp ua true).dispatchCount = 1 := by
  have hlook : alookup (aremove (ainsert st.futures k st.nextId) k) k = none :=
    alookup_aremove_self _ _ (akeys_ainsert_nodup _ _ _ hnodup)
  rcases hfast with hf | hf <;>
    simp [perform_and_wait_start, hf, hlook]

/-- C7, witness at a concrete input: empty state, key `'onServicesDiscovered'`,
no dedup, rejected acknowledgment. -/
theorem C7_witness :
    (perform_and_wait_start ⟨0, [], [], []⟩ false (Key.api "onServicesDiscovered")
      [] false true).outcome =
      StartOutcome.rejected (PyErr.bleakError
        ["api call failed, not waiting for " ++ (Key.api "onServicesDiscovered").str]) ∧
    alookup (perform_and_wait_start ⟨0, [], [], []⟩ false (Key.api "onServicesDiscovered")
      [] false true).st.futures (Key.api "onServicesDiscovered") = none ∧
    (perform_and_wait_start ⟨0, [], [], []⟩ false (Key.api "onServicesDiscovered")
      [] false true).dispatchCount = 1 :=
  C7_dispatch_rejection_atomicity ⟨0, [], [], []⟩ (Key.api "onServicesDiscovered")
    [] false (by decide) (Or.inl (by decide))

end Bleak
